import Mathlib

/-!
Verification of the inventory quantity ledger and reservation lifecycle of the
akwa_inventory package: a shallow embedding of the business methods of
`BaseInventoryItem` and the `InventoryReservation` record (src/models.py), of
the `reserve` and `release_reservation` viewset actions and the tenant-scoped
`get_queryset` (src/akwa_inventory/views.py).

Embedding conventions: Django model instances become immutable records; a
Python method that mutates `self` and returns a boolean becomes a function
returning the pair (returned boolean, updated record); a view action becomes a
function returning `Except` of an API error (all error responses leave the
stored state untouched, so the error branch carries no state) or the updated
state together with any record it created. The quantity fields are Django
`PositiveIntegerField`s, hence `Nat`; timestamps are measured in hours as `Nat`.
-/

namespace Akwa

/-- Embedding of the quantity fields and identity of `BaseInventoryItem`
(src/models.py, lines 155-197). -/
structure BaseInventoryItem where
  id : Nat
  profile_id : String
  total_quantity : Nat
  available_quantity : Nat
  reserved_quantity : Nat
deriving DecidableEq

/-- Embedding of `BaseInventoryItem.reserve` (src/models.py, lines 199-206):
when `available_quantity >= quantity`, move `quantity` units from available to
reserved and return True; otherwise return False without saving. -/
def BaseInventoryItem.reserve (self : BaseInventoryItem) (quantity : Nat) :
    Bool × BaseInventoryItem :=
  if self.available_quantity ≥ quantity then
    (true, { self with
      available_quantity := self.available_quantity - quantity,
      reserved_quantity := self.reserved_quantity + quantity })
  else
    (false, self)

/-- Embedding of `BaseInventoryItem.release_reservation` (src/models.py,
lines 208-215): when `reserved_quantity >= quantity`, move `quantity` units
from reserved back to available and return True; otherwise return False. -/
def BaseInventoryItem.release_reservation (self : BaseInventoryItem)
    (quantity : Nat) : Bool × BaseInventoryItem :=
  if self.reserved_quantity ≥ quantity then
    (true, { self with
      reserved_quantity := self.reserved_quantity - quantity,
      available_quantity := self.available_quantity + quantity })
  else
    (false, self)

/-- Embedding of `BaseInventoryItem.occupy` (src/models.py, lines 217-224):
when `reserved_quantity >= quantity`, remove `quantity` units from reserved
without adding them back to available, and return True; otherwise False. -/
def BaseInventoryItem.occupy (self : BaseInventoryItem) (quantity : Nat) :
    Bool × BaseInventoryItem :=
  if self.reserved_quantity ≥ quantity then
    (true, { self with reserved_quantity := self.reserved_quantity - quantity })
  else
    (false, self)

/-- Embedding of `BaseInventoryItem.make_available` (src/models.py,
lines 226-229): the method increments `available_quantity` unconditionally,
performs no capacity check, and returns nothing. -/
def BaseInventoryItem.make_available (self : BaseInventoryItem)
    (quantity : Nat) : BaseInventoryItem :=
  { self with available_quantity := self.available_quantity + quantity }

/-- The ledger invariant of the spec: `available_quantity + reserved_quantity
<= total_quantity`; nonnegativity of both counters is carried by `Nat`. -/
def invariantHolds (item : BaseInventoryItem) : Prop :=
  item.available_quantity + item.reserved_quantity ≤ item.total_quantity

instance (item : BaseInventoryItem) : Decidable (invariantHolds item) :=
  inferInstanceAs
    (Decidable (item.available_quantity + item.reserved_quantity ≤ item.total_quantity))

/-- The status choices of `InventoryReservation` (src/models.py,
lines 246-256). -/
inductive ReservationStatus
  | pending
  | confirmed
  | active
  | expired
  | cancelled
deriving DecidableEq

/-- Embedding of the `InventoryReservation` record (src/models.py,
lines 232-266). -/
structure InventoryReservation where
  id : Nat
  profile_id : String
  inventory_item_id : Nat
  customer_user_id : String
  quantity_reserved : Nat
  expiry_date : Nat
  status : ReservationStatus
deriving DecidableEq

/-- The error responses of the two viewset actions embedded below
(src/akwa_inventory/views.py, lines 95-105 and 152-156). -/
inductive ApiError
  | customerUserIdRequired
  | insufficientInventory
  | reservationNotFound
deriving DecidableEq

/-- Embedding of the viewset action `BaseInventoryViewSet.reserve`
(src/akwa_inventory/views.py, lines 87-130): require `customer_user_id`;
reject when `available_quantity < quantity`; otherwise create an
`InventoryReservation` (default status `pending`, expiry `now + expiry_hours`)
and apply `BaseInventoryItem.reserve` to the item, ignoring its boolean
result, as the code does. `newId` stands for the generated record id. -/
def reserveAction (item : BaseInventoryItem) (customer_user_id : Option String)
    (quantity : Nat) (expiry_hours : Nat) (now : Nat) (newId : Nat) :
    Except ApiError (BaseInventoryItem × InventoryReservation) :=
  match customer_user_id with
  | none => .error .customerUserIdRequired
  | some cid =>
    if item.available_quantity < quantity then
      .error .insufficientInventory
    else
      let created : InventoryReservation :=
        { id := newId,
          profile_id := item.profile_id,
          inventory_item_id := item.id,
          customer_user_id := cid,
          quantity_reserved := quantity,
          expiry_date := now + expiry_hours,
          status := .pending }
      .ok ((item.reserve quantity).2, created)

/-- The ORM lookup of the `release_reservation` action
(src/akwa_inventory/views.py, lines 139-143): get the reservation whose id is
`reservation_id`, whose `inventory_item_id` is the id of the item, and whose
status is `active`. -/
def releaseLookup (item : BaseInventoryItem) (reservation_id : Nat)
    (r : InventoryReservation) : Bool :=
  decide (r.id = reservation_id ∧ r.inventory_item_id = item.id ∧
    r.status = ReservationStatus.active)

/-- Embedding of the viewset action `BaseInventoryViewSet.release_reservation`
(src/akwa_inventory/views.py, lines 132-156): look the reservation up by id,
item and status `active` (a failed lookup raises DoesNotExist, answered with a
404); on success apply `BaseInventoryItem.release_reservation` with the
reserved quantity, ignoring its boolean result, and save the reservation with
status `cancelled`. -/
def releaseAction (item : BaseInventoryItem)
    (reservations : List InventoryReservation) (reservation_id : Nat) :
    Except ApiError (BaseInventoryItem × List InventoryReservation) :=
  match reservations.find? (releaseLookup item reservation_id) with
  | none => .error .reservationNotFound
  | some res =>
    .ok ((item.release_reservation res.quantity_reserved).2,
      reservations.map (fun s =>
        if s.id = res.id then { s with status := ReservationStatus.cancelled }
        else s))

/-- A row of any of the tenant-scoped tables, reduced to the fields
`get_queryset` inspects. -/
structure TenantRecord where
  id : Nat
  profile_id : String
deriving DecidableEq

/-- Embedding of `get_queryset` as written identically in all five viewsets
(src/akwa_inventory/views.py, lines 42-47, 298-302, 326-330, 374-378,
424-428): reading the key profile_id out of the user profile gives `none` when
the key is missing, and Python treats both `None` and the empty string as falsy
in the guard `if not profile_id`, answering the empty queryset; otherwise the
queryset is filtered to rows whose `profile_id` equals that of the requester. -/
def get_queryset (userProfileId : Option String)
    (queryset : List TenantRecord) : List TenantRecord :=
  match userProfileId with
  | none => []
  | some pid =>
    if pid = "" then []
    else queryset.filter (fun r => decide (r.profile_id = pid))

/-- One in-flight `reserve(quantity=1)` call in the read-modify-write pattern
of the Django code: the handler loads the row into an instance, checks and
mutates the instance in memory, and `save()` writes the instance fields back
over the row. The source takes no lock and opens no transaction, so other
calls may act on the row between the load and the save. -/
inductive CallPhase
  | ready
  | loaded (inst : BaseInventoryItem)
  | finished (returned : Bool)
deriving DecidableEq

/-- One step of one `reserve(1)` call against the shared row: a `ready` call
loads the row; a `loaded` call runs `BaseInventoryItem.reserve 1` on its
in-memory instance and, on success, saves the instance over the row. -/
def reserveOneStep (row : BaseInventoryItem) :
    CallPhase → BaseInventoryItem × CallPhase
  | .ready => (row, .loaded row)
  | .loaded inst =>
    match inst.reserve 1 with
    | (true, saved) => (saved, .finished true)
    | (false, _) => (row, .finished false)
  | .finished b => (row, .finished b)

/-- Run a schedule, a list of call indices, each entry letting the named call
take its next step against the shared row. -/
def runSchedule : BaseInventoryItem → List CallPhase → List Nat →
    BaseInventoryItem × List CallPhase
  | row, calls, [] => (row, calls)
  | row, calls, i :: rest =>
    match calls.get? i with
    | none => runSchedule row calls rest
    | some phase =>
      let next := reserveOneStep row phase
      runSchedule next.1 (calls.set i next.2) rest

/-- How many calls of a batch returned True. -/
def successCount (calls : List CallPhase) : Nat :=
  calls.countP (fun p => decide (p = CallPhase.finished true))

/-- Run `n` calls of `BaseInventoryItem.reserve 1` to completion one after the
other, returning the final item and the number of calls that returned True. -/
def runSequential : BaseInventoryItem → Nat → BaseInventoryItem × Nat
  | item, 0 => (item, 0)
  | item, n + 1 =>
    let step := item.reserve 1
    let rest := runSequential step.2 n
    (rest.1, (if step.1 then 1 else 0) + rest.2)

/-- A concrete item with total 1, available 1, reserved 0. -/
def unitItem : BaseInventoryItem :=
  { id := 1, profile_id := "p1", total_quantity := 1,
    available_quantity := 1, reserved_quantity := 0 }

/-- A concrete item matching the scenario of the spec after `reserve(item,3)`:
total 10, available 7, reserved 3. -/
def scenarioItem : BaseInventoryItem :=
  { id := 2, profile_id := "p1", total_quantity := 10,
    available_quantity := 7, reserved_quantity := 3 }

/-- A concrete reservation of 3 units of `scenarioItem` in status `pending`. -/
def pendingRes : InventoryReservation :=
  { id := 7, profile_id := "p1", inventory_item_id := 2,
    customer_user_id := "c1", quantity_reserved := 3, expiry_date := 24,
    status := .pending }

/-- Claim C1 (counterexample): `make_available` does not fail with
CapacityExceeded when the increment pushes `available_quantity +
reserved_quantity` above `total_quantity`: on an item with total 1,
available 1, reserved 0 (for which the invariant holds), `make_available 1`
returns an item with available 2, breaking the invariant, instead of leaving
the counters unchanged. -/
theorem make_available_no_capacity_check :
    invariantHolds unitItem ∧ ¬ invariantHolds (unitItem.make_available 1) := by
  decide

/-- Claim C1 (amended): on any item satisfying the invariant
`available_quantity + reserved_quantity <= total_quantity` (counters
nonnegative by type), the operations `reserve`, `release_reservation` and
`occupy` preserve the invariant for every quantity; `make_available` performs
no capacity check and never fails, and the incremented item satisfies the
invariant exactly when `available_quantity + qty + reserved_quantity <=
total_quantity`. -/
theorem ledger_ops_preserve_invariant (item : BaseInventoryItem) (qty : Nat)
    (hinv : invariantHolds item) :
    invariantHolds (item.reserve qty).2 ∧
    invariantHolds (item.release_reservation qty).2 ∧
    invariantHolds (item.occupy qty).2 ∧
    (invariantHolds (item.make_available qty) ↔
      item.available_quantity + qty + item.reserved_quantity ≤
        item.total_quantity) := by
  unfold invariantHolds at *
  refine ⟨?_, ?_, ?_, ?_⟩
  · unfold BaseInventoryItem.reserve
    split <;> simp <;> try omega
  · unfold BaseInventoryItem.release_reservation
    split <;> simp <;> try omega
  · unfold BaseInventoryItem.occupy
    split <;> simp <;> try omega
  · unfold BaseInventoryItem.make_available
    simp
    try omega

/-- Witness for C1 (amended) at the scenario item and quantity 2. -/
theorem ledger_ops_preserve_invariant_witness :
    invariantHolds (scenarioItem.reserve 2).2 ∧
    invariantHolds (scenarioItem.release_reservation 2).2 ∧
    invariantHolds (scenarioItem.occupy 2).2 ∧
    (invariantHolds (scenarioItem.make_available 2) ↔
      scenarioItem.available_quantity + 2 + scenarioItem.reserved_quantity ≤
        scenarioItem.total_quantity) :=
  ledger_ops_preserve_invariant scenarioItem 2 (by decide)

/-- Claim C2: `reserve(item, qty)` fails (returning False) exactly when
`qty > available_quantity`; otherwise it returns True having moved `qty`
units from available to reserved, leaving `total_quantity` unchanged, and
the mutated instance carries the new counters. -/
theorem reserve_spec (item : BaseInventoryItem) (qty : Nat) :
    ((item.reserve qty).1 = false ↔ qty > item.available_quantity) ∧
    (qty ≤ item.available_quantity →
      (item.reserve qty).1 = true ∧
      (item.reserve qty).2.available_quantity =
        item.available_quantity - qty ∧
      (item.reserve qty).2.reserved_quantity =
        item.reserved_quantity + qty ∧
      (item.reserve qty).2.total_quantity = item.total_quantity) := by
  unfold BaseInventoryItem.reserve
  split <;> simp <;> try omega

/-- Claim C3: `occupy(item, qty)` fails (returning False) exactly when
`qty > reserved_quantity`; otherwise it decrements `reserved_quantity` by
`qty`, leaves `available_quantity` unchanged, and the implicit occupied count
`total - available - reserved` grows by `qty`. -/
theorem occupy_spec (item : BaseInventoryItem) (qty : Nat)
    (hinv : invariantHolds item) :
    ((item.occupy qty).1 = false ↔ qty > item.reserved_quantity) ∧
    (qty ≤ item.reserved_quantity →
      (item.occupy qty).2.reserved_quantity = item.reserved_quantity - qty ∧
      (item.occupy qty).2.available_quantity = item.available_quantity ∧
      (item.occupy qty).2.total_quantity -
          (item.occupy qty).2.available_quantity -
          (item.occupy qty).2.reserved_quantity =
        (item.total_quantity - item.available_quantity -
          item.reserved_quantity) + qty) := by
  unfold invariantHolds at hinv
  unfold BaseInventoryItem.occupy
  split <;> simp <;> try omega

/-- Witness for C3 at the scenario item (total 10, available 7, reserved 3)
and quantity 3: reserved becomes 0, available stays 7, occupied grows to 3. -/
theorem occupy_spec_witness :
    ((scenarioItem.occupy 3).1 = false ↔ 3 > scenarioItem.reserved_quantity) ∧
    (3 ≤ scenarioItem.reserved_quantity →
      (scenarioItem.occupy 3).2.reserved_quantity =
        scenarioItem.reserved_quantity - 3 ∧
      (scenarioItem.occupy 3).2.available_quantity =
        scenarioItem.available_quantity ∧
      (scenarioItem.occupy 3).2.total_quantity -
          (scenarioItem.occupy 3).2.available_quantity -
          (scenarioItem.occupy 3).2.reserved_quantity =
        (scenarioItem.total_quantity - scenarioItem.available_quantity -
          scenarioItem.reserved_quantity) + 3) :=
  occupy_spec scenarioItem 3 (by decide)

/-- Claim C4 (counterexample): a reservation in the non-terminal status
`pending` cannot be released: the lookup of the view filters on status
`active`, so the call answers the NotFound error (not success, and not an
AlreadyTerminal error). -/
theorem release_pending_not_found :
    releaseAction scenarioItem [pendingRes] 7 =
      .error .reservationNotFound := by
  rfl

/-- Claim C4 (amended): the release action succeeds only for a reservation in
status `active`. When no stored reservation matches the requested id, the
item, and status `active` (in particular when the matching reservation is in
`pending`, `confirmed`, `expired` or `cancelled`), the action fails with the
NotFound error and changes nothing. When the lookup finds a reservation, that
reservation matches the request and is `active`, the ledger release is applied
to the item with the reserved quantity, and the stored reservation with the
requested id is saved with status `cancelled`. -/
theorem release_requires_active (item : BaseInventoryItem)
    (reservations : List InventoryReservation) (rid : Nat) :
    ((∀ r ∈ reservations,
        ¬(r.id = rid ∧ r.inventory_item_id = item.id ∧
          r.status = ReservationStatus.active)) →
      releaseAction item reservations rid = .error .reservationNotFound) ∧
    (∀ res, reservations.find? (releaseLookup item rid) = some res →
      res ∈ reservations ∧ res.id = rid ∧ res.inventory_item_id = item.id ∧
      res.status = ReservationStatus.active ∧
      ∃ item2 updated,
        releaseAction item reservations rid = .ok (item2, updated) ∧
        item2 = (item.release_reservation res.quantity_reserved).2 ∧
        ∀ s ∈ updated, s.id = rid → s.status = ReservationStatus.cancelled) := by
  constructor
  · intro hall
    have hnone : reservations.find? (releaseLookup item rid) = none := by
      rw [List.find?_eq_none]
      intro r hr
      unfold releaseLookup
      simpa using hall r hr
    unfold releaseAction
    rw [hnone]
  · intro res hfind
    have hmem : res ∈ reservations := List.mem_of_find?_eq_some hfind
    have hpred : releaseLookup item rid res = true := List.find?_some hfind
    unfold releaseLookup at hpred
    simp only [decide_eq_true_eq] at hpred
    obtain ⟨h1, h2, h3⟩ := hpred
    refine ⟨hmem, h1, h2, h3,
      (item.release_reservation res.quantity_reserved).2,
      reservations.map (fun s =>
        if s.id = res.id then { s with status := ReservationStatus.cancelled }
        else s), ?_, rfl, ?_⟩
    · unfold releaseAction
      rw [hfind]
    · intro s hs hsid
      rcases List.mem_map.mp hs with ⟨t, ht, rfl⟩
      by_cases hc : t.id = res.id
      · simp [hc]
      · exfalso
        simp only [if_neg hc] at hsid ⊢
        exact hc (hsid.trans h1.symm)

/-- Claim C5: when the requested quantity exceeds `available_quantity`, the
reserve action of the viewset fails with the insufficient-inventory error,
creating no reservation and leaving the item untouched (the error branch
returns no new state); when the quantity does not exceed `available_quantity`,
it creates exactly one reservation in status `pending` with expiry
`now + expiry_hours`, for the requested quantity against the requested item,
and moves the quantity from available to reserved. -/
theorem reserve_view_spec (item : BaseInventoryItem) (cid : String)
    (qty hours now nid : Nat) :
    (item.available_quantity < qty →
      reserveAction item (some cid) qty hours now nid =
        .error .insufficientInventory) ∧
    (qty ≤ item.available_quantity →
      ∃ item2 created,
        reserveAction item (some cid) qty hours now nid =
          .ok (item2, created) ∧
        created.status = ReservationStatus.pending ∧
        created.expiry_date = now + hours ∧
        created.quantity_reserved = qty ∧
        created.inventory_item_id = item.id ∧
        created.profile_id = item.profile_id ∧
        item2.available_quantity = item.available_quantity - qty ∧
        item2.reserved_quantity = item.reserved_quantity + qty) := by
  constructor
  · intro h
    simp only [reserveAction]
    rw [if_pos h]
  · intro h
    have hlt : ¬ item.available_quantity < qty := by omega
    simp only [reserveAction]
    rw [if_neg hlt]
    refine ⟨(item.reserve qty).2, _, rfl, rfl, rfl, rfl, rfl, rfl, ?_, ?_⟩ <;>
      · unfold BaseInventoryItem.reserve
        rw [if_pos h]

/-- Claim C6 (counterexample): a reserve request with quantity 0 (below the
minimum of 1 the spec requires) is not rejected: against the scenario item
(available 7) it answers success, creating a pending reservation with
`quantity_reserved = 0` while the counters stay at 7 and 3. -/
theorem reserve_view_accepts_zero_quantity :
    reserveAction scenarioItem (some "c1") 0 24 0 9 =
      .ok (scenarioItem,
        { id := 9, profile_id := "p1", inventory_item_id := 2,
          customer_user_id := "c1", quantity_reserved := 0,
          expiry_date := 24, status := ReservationStatus.pending }) := by
  rfl

/-- Claim C6 (amended): the reserve action of the viewset performs no
minimum-quantity validation. For every item, a request with quantity 0 (and a
customer id present) succeeds: it creates a pending reservation with
`quantity_reserved = 0` and leaves both counters unchanged. -/
theorem reserve_view_no_min_quantity (item : BaseInventoryItem) (cid : String)
    (hours now nid : Nat) :
    ∃ item2 created,
      reserveAction item (some cid) 0 hours now nid = .ok (item2, created) ∧
      created.quantity_reserved = 0 ∧
      created.status = ReservationStatus.pending ∧
      item2.available_quantity = item.available_quantity ∧
      item2.reserved_quantity = item.reserved_quantity := by
  simp only [reserveAction]
  rw [if_neg (by omega : ¬ item.available_quantity < 0)]
  refine ⟨(item.reserve 0).2, _, rfl, rfl, rfl, ?_, ?_⟩ <;>
    · unfold BaseInventoryItem.reserve
      rw [if_pos (Nat.zero_le _)]
      simp

/-- Claim C7: for every quantity q at most `available_quantity`, performing
`reserve q` and then `release_reservation q` restores both
`available_quantity` and `reserved_quantity` to their values before the
reserve. -/
theorem reserve_release_round_trip (item : BaseInventoryItem) (q : Nat)
    (h : q ≤ item.available_quantity) :
    (((item.reserve q).2).release_reservation q).2.available_quantity =
        item.available_quantity ∧
    (((item.reserve q).2).release_reservation q).2.reserved_quantity =
        item.reserved_quantity := by
  unfold BaseInventoryItem.reserve BaseInventoryItem.release_reservation
  rw [if_pos h]
  simp
  try omega

/-- Witness for C7 at the scenario item and quantity 3. -/
theorem reserve_release_round_trip_witness :
    (((scenarioItem.reserve 3).2).release_reservation 3).2.available_quantity =
        scenarioItem.available_quantity ∧
    (((scenarioItem.reserve 3).2).release_reservation 3).2.reserved_quantity =
        scenarioItem.reserved_quantity :=
  reserve_release_round_trip scenarioItem 3 (by decide)

/-- Claim C8 (counterexample): two `reserve(1)` calls against an item with
`available_quantity = 1` (so k = 1 < N = 2), interleaved so that both load
the row before either saves, both pass the availability check and both
return success: 2 successes instead of exactly k = 1. The final
`available_quantity` is 0 but `reserved_quantity` records only one of the two
granted reservations, a lost update the unlocked read-modify-write of the
source permits. -/
theorem concurrent_reserve_both_succeed :
    successCount
      (runSchedule unitItem [CallPhase.ready, CallPhase.ready] [0, 1, 0, 1]).2 =
        2 ∧
    (runSchedule unitItem [CallPhase.ready, CallPhase.ready]
      [0, 1, 0, 1]).1.available_quantity = 0 ∧
    (runSchedule unitItem [CallPhase.ready, CallPhase.ready]
      [0, 1, 0, 1]).1.reserved_quantity = 1 := by
  decide

/-- Helper for C8: n sequential calls of `reserve(1)` against an item whose
`available_quantity` is at most n succeed once per available unit, drain
`available_quantity` to 0, and move every available unit into
`reserved_quantity`. -/
theorem runSequential_drains (n : Nat) (item : BaseInventoryItem)
    (h : item.available_quantity ≤ n) :
    (runSequential item n).2 = item.available_quantity ∧
    (runSequential item n).1.available_quantity = 0 ∧
    (runSequential item n).1.reserved_quantity =
      item.reserved_quantity + item.available_quantity := by
  induction n generalizing item with
  | zero =>
    have h0 : item.available_quantity = 0 := Nat.le_zero.mp h
    simp [runSequential, h0]
  | succ n ih =>
    rcases Nat.eq_zero_or_pos item.available_quantity with h0 | hpos
    · have hfail : item.reserve 1 = (false, item) := by
        unfold BaseInventoryItem.reserve
        rw [if_neg (by omega)]
      have := ih item (by omega)
      simp only [runSequential, hfail]
      simp only [h0] at this ⊢
      simpa using this
    · have hok : item.reserve 1 =
          (true, { item with
            available_quantity := item.available_quantity - 1,
            reserved_quantity := item.reserved_quantity + 1 }) := by
        unfold BaseInventoryItem.reserve
        rw [if_pos (by omega)]
      have := ih { item with
            available_quantity := item.available_quantity - 1,
            reserved_quantity := item.reserved_quantity + 1 } (by simp; omega)
      simp only [runSequential, hok]
      simp at this ⊢
      omega

/-- Claim C8 (amended): executed sequentially (each call completing before the
next begins), N calls of `reserve(1)` against an item with
`available_quantity = k < N` succeed exactly k times (hence fail N - k times),
drain `available_quantity` to 0, and grow `reserved_quantity` by k. The
concurrent form of the claim fails: the source takes no lock, so an
interleaving can let two calls both pass the availability check. -/
theorem sequential_reserve_exact (item : BaseInventoryItem) (n : Nat)
    (h : item.available_quantity < n) :
    (runSequential item n).2 = item.available_quantity ∧
    (runSequential item n).1.available_quantity = 0 ∧
    (runSequential item n).1.reserved_quantity =
      item.reserved_quantity + item.available_quantity :=
  runSequential_drains n item (Nat.le_of_lt h)

/-- Witness for C8 (amended) at the unit item (k = 1) and N = 2. -/
theorem sequential_reserve_exact_witness :
    (runSequential unitItem 2).2 = unitItem.available_quantity ∧
    (runSequential unitItem 2).1.available_quantity = 0 ∧
    (runSequential unitItem 2).1.reserved_quantity =
      unitItem.reserved_quantity + unitItem.available_quantity :=
  sequential_reserve_exact unitItem 2 (by decide)

/-- Claim C9: each ledger method called with a quantity exceeding the counter
it checks returns False and leaves the instance exactly unchanged: `reserve`
when the quantity exceeds `available_quantity`, `release_reservation` and
`occupy` when it exceeds `reserved_quantity`. -/
theorem failed_ops_leave_item_unchanged (item : BaseInventoryItem)
    (qty : Nat) :
    (qty > item.available_quantity → item.reserve qty = (false, item)) ∧
    (qty > item.reserved_quantity →
      item.release_reservation qty = (false, item) ∧
      item.occupy qty = (false, item)) := by
  constructor
  · intro h
    unfold BaseInventoryItem.reserve
    rw [if_neg]
    omega
  · intro h
    constructor
    · unfold BaseInventoryItem.release_reservation
      rw [if_neg]
      omega
    · unfold BaseInventoryItem.occupy
      rw [if_neg]
      omega

/-- Claim C10: a record belongs to the queryset `get_queryset` answers exactly
when it was in the stored queryset and its `profile_id` equals the non-empty
profile id of the requesting user; in particular a requester without a profile
id (missing key or empty string) receives the empty queryset, so the
tenant-scoped viewsets never read or mutate records of another tenant. -/
theorem get_queryset_tenant_isolation (userProfileId : Option String)
    (queryset : List TenantRecord) (r : TenantRecord) :
    r ∈ get_queryset userProfileId queryset ↔
      r ∈ queryset ∧ userProfileId = some r.profile_id ∧
        r.profile_id ≠ "" := by
  cases userProfileId with
  | none => simp [get_queryset]
  | some pid =>
    simp only [get_queryset]
    by_cases hp : pid = ""
    · subst hp
      rw [if_pos rfl]
      simp only [List.not_mem_nil, false_iff]
      rintro ⟨-, heq, hne⟩
      exact hne (Option.some_injective _ heq).symm
    · rw [if_neg hp]
      simp only [List.mem_filter, decide_eq_true_eq]
      constructor
      · rintro ⟨hmem, hpid⟩
        exact ⟨hmem, by rw [hpid], by rw [hpid]; exact hp⟩
      · rintro ⟨hmem, heq, -⟩
        exact ⟨hmem, (Option.some_injective _ heq).symm⟩

end Akwa
